import Mathlib

/-!
Verification development for the MBF tick-driven backtesting engine
(`src/strategy/backtest.py`, `src/strategy/order.py`, `src/strategy/position.py`,
`src/data_source/realtime_data_source.py`).

Python floats are modelled exactly as rationals; the float value NaN
(produced by the aligner's missing-data filling and propagated through
arithmetic) is modelled as `none` of `Option ℚ`.  Python `datetime`
timestamps are modelled as a calendar day (`ℤ`, the result of `.date()`)
together with a time-of-day (`ℚ`); comparisons are lexicographic, exactly
matching `datetime` ordering for timestamps encoded this way.
-/

namespace MBF

/-- A Python float as it flows through the engine: `some q` is a finite
float (modelled exactly), `none` is NaN. -/
abbrev PFloat := Option ℚ

/-- Float addition: NaN propagates. -/
def padd : PFloat → PFloat → PFloat
  | some a, some b => some (a + b)
  | _, _ => none

/-- Float subtraction: NaN propagates. -/
def psub : PFloat → PFloat → PFloat
  | some a, some b => some (a - b)
  | _, _ => none

/-- Float multiplication: NaN propagates. -/
def pmul : PFloat → PFloat → PFloat
  | some a, some b => some (a * b)
  | _, _ => none

/-- Float negation: NaN propagates. -/
def pneg : PFloat → PFloat
  | some a => some (-a)
  | none => none

/-- Float division: NaN propagates.  (A finite/zero division raises
`ZeroDivisionError` in Python; it is mapped to `none` here and is never
reached on the inputs the engine's guarded divisions evaluate.) -/
def pdiv : PFloat → PFloat → PFloat
  | some a, some b => if b = 0 then none else some (a / b)
  | _, _ => none

/-- Float `<=`: any comparison involving NaN is false. -/
def ple : PFloat → PFloat → Bool
  | some a, some b => decide (a ≤ b)
  | _, _ => false

/-- Float `<`: any comparison involving NaN is false. -/
def plt : PFloat → PFloat → Bool
  | some a, some b => decide (a < b)
  | _, _ => false

/-- Float `>=`: any comparison involving NaN is false. -/
def pge : PFloat → PFloat → Bool
  | some a, some b => decide (b ≤ a)
  | _, _ => false

/-- Float `>`: any comparison involving NaN is false. -/
def pgt : PFloat → PFloat → Bool
  | some a, some b => decide (b < a)
  | _, _ => false

/-- A `pandas`/`datetime` timestamp: `day` is what `.date()` returns,
`tod` the time within the day.  Ordering is lexicographic. -/
structure Timestamp where
  day : ℤ
  tod : ℚ
deriving DecidableEq

/-- Timestamp strict order (`datetime` `<`). -/
def tsLt (a b : Timestamp) : Bool :=
  decide (a.day < b.day) || (decide (a.day = b.day) && decide (a.tod < b.tod))

/-- Timestamp order (`datetime` `<=`). -/
def tsLe (a b : Timestamp) : Bool :=
  decide (a.day < b.day) || (decide (a.day = b.day) && decide (a.tod ≤ b.tod))

/-- The GTD expiry test `current_timestamp > order.expire_time` from
`backtest.py` line 75.  `expire_time` may be `None` in the source (the
comparison would then raise `TypeError`); no claim evaluates a GTD order
without an expiry, and the `none` case is mapped to `false`. -/
def tsAfterOpt (t : Timestamp) : Option Timestamp → Bool
  | some e => tsLt e t
  | none => false

/-- `order.py` `OrderDirection`. -/
inductive OrderDirection
  | BUY
  | SELL
deriving DecidableEq

/-- `order.py` `OrderType`. -/
inductive OrderType
  | LIMIT
  | MARKET
  | STOP
  | TIME
deriving DecidableEq

/-- `order.py` `OrderTimeInForce`. -/
inductive OrderTimeInForce
  | GTC
  | DAY
  | GTD
deriving DecidableEq

/-- `order.py` `OrderStatus`. -/
inductive OrderStatus
  | PENDING
  | FILLED
  | CANCELLED
  | REJECTED
deriving DecidableEq

/-- `order.py` `Order.__init__`: the fields the constructor assigns
(`filled_volume` and `avg_price` are set but never read by the engine and
are reflected in the attribute-level model `orderInit` below). -/
structure Order where
  order_id : String
  instrument : String
  direction : OrderDirection
  price : PFloat
  volume : ℚ
  order_type : OrderType
  time_in_force : OrderTimeInForce
  expire_time : Option Timestamp
  create_time : Timestamp
  filled_time : Option Timestamp := none
  filled_price : PFloat := none
  status : OrderStatus := OrderStatus.PENDING
deriving DecidableEq

/-- `position.py` `Position.__init__`. -/
structure Position where
  symbol : String
  direction : OrderDirection
  volume : ℚ
  open_price : PFloat
  open_time : Timestamp
  current_price : PFloat
  pnl : PFloat
  commission_rate : ℚ
  total_commission : PFloat
deriving DecidableEq

/-- `position.py` `Position.__init__` given the constructor arguments:
`current_price` starts at the open price, `pnl` and `total_commission`
at `0.0`. -/
def Position.make (symbol : String) (direction : OrderDirection) (volume : ℚ)
    (price : PFloat) (timestamp : Timestamp) (commission_rate : ℚ) : Position :=
  { symbol := symbol, direction := direction, volume := volume,
    open_price := price, open_time := timestamp, current_price := price,
    pnl := some 0, commission_rate := commission_rate, total_commission := some 0 }

/-- `position.py` `Position.update`: remark the position at
`current_price`, `pnl = (current_price - open_price) * volume`, negated
for SELL positions. -/
def Position.update (p : Position) (current_price : PFloat) : Position :=
  let pnl0 := pmul (psub current_price p.open_price) (some p.volume)
  { p with current_price := current_price,
           pnl := if p.direction = OrderDirection.SELL then pneg pnl0 else pnl0 }

/-- `position.py` `Position.close`: the closing commission is charged at
the position's `current_price` (the last marked price), added to
`total_commission`, and the method returns `self.pnl - commission`
(again based on the last marked price, not on any fill price). -/
def Position.close (p : Position) : PFloat × Position :=
  let commission := pmul (pmul p.current_price (some p.volume)) (some p.commission_rate)
  (psub p.pnl commission, { p with total_commission := padd p.total_commission commission })

/-- `position.py` `Position.add_commission`:
`commission = price * volume * self.commission_rate`. -/
def Position.add_commission (p : Position) (price : PFloat) (volume : ℚ) : Position :=
  { p with total_commission :=
            padd p.total_commission (pmul (pmul price (some volume)) (some p.commission_rate)) }

/-- Python `dict` key lookup (`d[k]` / `k in d`), on an association list
kept in insertion order. -/
def dictLookup {α : Type} (k : String) : List (String × α) → Option α
  | [] => none
  | (k', v) :: rest => if k' = k then some v else dictLookup k rest

/-- Python in-place mutation of the object stored under key `k`
(`d[k].field = ...` sequences): the value under `k` is replaced. -/
def dictSet {α : Type} (k : String) (v : α) (l : List (String × α)) : List (String × α) :=
  l.map (fun kv => if kv.1 = k then (k, v) else kv)

/-- Python `del d[k]`. -/
def dictErase {α : Type} (k : String) (l : List (String × α)) : List (String × α) :=
  l.filter (fun kv => decide (kv.1 ≠ k))

/-- One instrument's best quote in the current tick data
(`askp1` / `bidp1` columns). -/
structure Quote where
  askp1 : PFloat
  bidp1 : PFloat
deriving DecidableEq

/-- The per-step tick data `self.current_data`.  The source reads it in
two shapes: `_process_orders` reads the flat fields
`current_data['askp1']` / `current_data['bidp1']` / `current_data['timestamp']`,
while `_get_current_price` reads per-symbol quotes
`current_data[symbol]['askp1']`.  Both shapes are carried here; in every
scenario evaluated below the flat fields agree with the (single)
instrument's quote, as they do on a single-instrument feed. -/
structure Snapshot where
  ts : Timestamp
  askp1 : PFloat
  bidp1 : PFloat
  quotes : List (String × Quote)
deriving DecidableEq

/-- The engine's mutable state (`BacktestEngine` together with the
strategy's `orders` list and `positions` dict).  `fills` and `cancels`
record the `on_trade` / `on_cancel` callbacks in call order, and
`closed_pnls` records the values the source binds to the local `pnl`
on the close branches of `_process_orders` (the source computes and then
discards them; they are logged here so the realized-P&L claims can be
stated). -/
structure BTState where
  orders : List Order
  positions : List (String × Position)
  equity_curve : List PFloat
  max_drawdown : PFloat
  total_commission : PFloat
  fills : List Order
  cancels : List Order
  closed_pnls : List PFloat
deriving DecidableEq

/-- `backtest.py` lines 116-159: apply a FILLED order to the position
ledger and the commission statistics. -/
def applyFilledOrder (rate : ℚ) (ts : Timestamp) (o : Order) (st : BTState) : BTState :=
  match dictLookup o.instrument st.positions with
  | some position =>
    if position.direction = o.direction then
      -- 加仓 (add to position), lines 121-129
      let total_volume := position.volume + o.volume
      let position :=
        { position with
            open_price := pdiv (padd (pmul position.open_price (some position.volume))
                                     (pmul o.filled_price (some o.volume)))
                               (some total_volume),
            volume := total_volume }
      let position := position.add_commission o.filled_price o.volume
      { st with positions := dictSet o.instrument position st.positions,
                total_commission := padd st.total_commission
                  (pmul (pmul o.filled_price (some o.volume)) (some rate)) }
    else if position.volume ≤ o.volume then
      -- 完全平仓 (full close), lines 132-136: `pnl = position.close()`;
      -- `position.total_commission` is read after `close` has added the
      -- closing commission to it.
      let r := position.close
      { st with closed_pnls := st.closed_pnls ++ [r.1],
                total_commission := padd st.total_commission r.2.total_commission,
                positions := dictErase o.instrument st.positions }
    else
      -- 部分平仓 (reduce position), lines 138-146
      let pnl0 := pmul (psub o.filled_price position.open_price) (some o.volume)
      let pnl := if position.direction = OrderDirection.SELL then pneg pnl0 else pnl0
      let commission := pmul (pmul o.filled_price (some o.volume)) (some rate)
      let position :=
        { position with volume := position.volume - o.volume,
                        total_commission := padd position.total_commission commission }
      { st with closed_pnls := st.closed_pnls ++ [pnl],
                positions := dictSet o.instrument position st.positions,
                total_commission := padd st.total_commission commission }
  | none =>
      -- 新开仓 (new position), lines 149-159
      let position := Position.make o.instrument o.direction o.volume o.filled_price ts rate
      let position := position.add_commission o.filled_price o.volume
      { st with positions := st.positions ++ [(o.instrument, position)],
                total_commission := padd st.total_commission
                  (pmul (pmul o.filled_price (some o.volume)) (some rate)) }

/-- `backtest.py` lines 79-113: fill evaluation for a PENDING,
non-expired order against the flat `askp1`/`bidp1` of the tick data.
The source's LIMIT-BUY line
`order.create_time = current_timestamp if not order.create_time else order.create_time`
is a no-op (a `datetime` object is always truthy) and is omitted.
TIME orders have no handler and fall through unchanged. -/
def evalFill (snap : Snapshot) (o : Order) : Order :=
  if o.order_type = OrderType.MARKET then
    { o with filled_price := if o.direction = OrderDirection.BUY then snap.askp1 else snap.bidp1,
             status := OrderStatus.FILLED, filled_time := some snap.ts }
  else if o.order_type = OrderType.LIMIT then
    if o.direction = OrderDirection.BUY ∧ ple snap.askp1 o.price then
      { o with filled_price := snap.askp1, status := OrderStatus.FILLED,
               filled_time := some snap.ts }
    else if o.direction = OrderDirection.SELL ∧ pge snap.bidp1 o.price then
      { o with filled_price := snap.bidp1, status := OrderStatus.FILLED,
               filled_time := some snap.ts }
    else o
  else if o.order_type = OrderType.STOP then
    if o.direction = OrderDirection.BUY then
      if pge snap.askp1 o.price then
        { o with filled_price := snap.askp1, status := OrderStatus.FILLED,
                 filled_time := some snap.ts }
      else o
    else
      if ple snap.bidp1 o.price then
        { o with filled_price := snap.bidp1, status := OrderStatus.FILLED,
                 filled_time := some snap.ts }
      else o
  else o

/-- `backtest.py` lines 116-170: the settlement phase of one loop body.
Returns the (possibly mutated) order, whether `self.strategy.orders.remove(order)`
was called, and the new engine state. -/
def settleOrder (rate : ℚ) (snap : Snapshot) (o : Order) (st : BTState) :
    Order × Bool × BTState :=
  if o.status = OrderStatus.FILLED then
    let st := applyFilledOrder rate snap.ts o st
    (o, true, { st with fills := st.fills ++ [o] })
  else if o.status = OrderStatus.CANCELLED then
    (o, true, { st with cancels := st.cancels ++ [o] })
  else
    (o, false, st)

/-- `backtest.py` lines 62-170: one body of the `for order in self.strategy.orders`
loop.  The expiry branches end in `continue`, so a freshly
expiry-cancelled order does NOT reach the settlement phase on this step
(its cancel notification and removal happen on a later step). -/
def processOne (rate : ℚ) (snap : Snapshot) (o : Order) (st : BTState) :
    Order × Bool × BTState :=
  if o.status = OrderStatus.PENDING then
    if o.time_in_force = OrderTimeInForce.DAY ∧ o.create_time.day < snap.ts.day then
      ({ o with status := OrderStatus.CANCELLED }, false, st)
    else if o.time_in_force = OrderTimeInForce.GTD ∧ tsAfterOpt snap.ts o.expire_time then
      ({ o with status := OrderStatus.CANCELLED }, false, st)
    else
      settleOrder rate snap (evalFill snap o) st
  else
    settleOrder rate snap o st

/-- CPython's `for order in self.strategy.orders` iterator over the live
list: the iterator keeps an index that advances by one after each yield,
while `self.strategy.orders.remove(order)` (called on the just-yielded,
identity-distinct element) shifts the remaining elements left by one —
so the element immediately following a removed one is never yielded on
this pass: it stays in the list unprocessed.  Stated structurally:
`done` is the part of the live list the iterator has moved past,
`todo` the rest; on removal the head of `todo` is skipped (kept
unmodified) and iteration resumes after it. -/
def processLoop (rate : ℚ) (snap : Snapshot) :
    List Order → List Order → BTState → List Order × BTState
  | done, [], st => (done, st)
  | done, o :: todo, st =>
    let r := processOne rate snap o st
    if r.2.1 then
      match todo with
      | [] => (done, r.2.2)
      | skipped :: todo' => processLoop rate snap (done ++ [skipped]) todo' r.2.2
    else
      processLoop rate snap (done ++ [r.1]) todo r.2.2

/-- `backtest.py` `_process_orders`. -/
def processOrders (rate : ℚ) (snap : Snapshot) (st : BTState) : BTState :=
  let r := processLoop rate snap [] st.orders st
  { r.2 with orders := r.1 }

/-- `backtest.py` `_get_current_price`:
`(current_data[symbol]['askp1'] + current_data[symbol]['bidp1']) / 2`.
A missing symbol raises `KeyError` in the source; it is mapped to NaN
here and never reached in the scenarios evaluated below. -/
def getCurrentPrice (snap : Snapshot) (symbol : String) : PFloat :=
  match dictLookup symbol snap.quotes with
  | some q => pdiv (padd q.askp1 q.bidp1) (some 2)
  | none => none

/-- `backtest.py` lines 181-184: remark every open position at that
step's mid price. -/
def updatePositions (snap : Snapshot) (positions : List (String × Position)) :
    List (String × Position) :=
  positions.map (fun kv => (kv.1, kv.2.update (getCurrentPrice snap kv.1)))

/-- `backtest.py` lines 181-184: `total_pnl` summed over the (already
remarked) positions. -/
def totalPnl (positions : List (String × Position)) : PFloat :=
  positions.foldl (fun acc kv => padd acc kv.2.pnl) (some 0)

/-- Python `max(lst)` over floats: keep the first element, replace the
accumulator whenever a later element compares `>` (so NaN elements never
replace it). -/
def listMaxP : List PFloat → PFloat
  | [] => none
  | x :: xs => xs.foldl (fun acc y => if pgt y acc then y else acc) x

/-- Python `min(lst)` over floats, same comparison-based semantics. -/
def listMinP : List PFloat → PFloat
  | [] => none
  | x :: xs => xs.foldl (fun acc y => if plt y acc then y else acc) x

/-- `backtest.py` lines 186-197: append `total_pnl` cumulatively to the
equity curve, then `peak = max(curve)`, `trough = min(curve)`,
`drawdown = (peak - trough) / peak if peak != 0 else 0`, and
`max_drawdown = max(max_drawdown, drawdown)`.  Returns the new curve and
the new recorded maximum drawdown. -/
def updateStats (total_pnl : PFloat) (equity_curve : List PFloat)
    (max_drawdown : PFloat) : List PFloat × PFloat :=
  let equity_curve := equity_curve ++ [padd (equity_curve.getLastD (some 0)) total_pnl]
  let peak := listMaxP equity_curve
  let trough := listMinP equity_curve
  let drawdown := if peak = some 0 then some 0 else pdiv (psub peak trough) peak
  (equity_curve, if pgt drawdown max_drawdown then drawdown else max_drawdown)

/-- `backtest.py` `_update_performance_stats` applied to the engine
state. -/
def updatePerformanceStats (snap : Snapshot) (st : BTState) : BTState :=
  let positions := updatePositions snap st.positions
  let r := updateStats (totalPnl positions) st.equity_curve st.max_drawdown
  { st with positions := positions, equity_curve := r.1, max_drawdown := r.2 }

/-- The engine state at simulation start: no orders, no positions, the
equity curve as first materialized (`[0.0]`), zero recorded drawdown and
commission. -/
def initialState : BTState :=
  { orders := [], positions := [], equity_curve := [some 0],
    max_drawdown := some 0, total_commission := some 0,
    fills := [], cancels := [], closed_pnls := [] }

/-- `backtest.py` `_process_tick` for one snapshot: the strategy's
`on_data` callback runs first (modelled as a script appending the orders
the strategy issues for this snapshot to `self.orders`), then
`_process_orders`, then `_update_performance_stats`. -/
def runStep (rate : ℚ) (script : Snapshot → List Order) (st : BTState)
    (snap : Snapshot) : BTState :=
  let st := { st with orders := st.orders ++ script snap }
  let st := processOrders rate snap st
  updatePerformanceStats snap st

/-- `backtest.py` `run` over a finite list of snapshots (the source's
end-of-stream iteration, which feeds a final `None` tick into
`_process_tick`, is outside every claim). -/
def runBacktest (rate : ℚ) (script : Snapshot → List Order)
    (snaps : List Snapshot) : BTState :=
  snaps.foldl (runStep rate script) initialState

/-- One observation in an input per-instrument series: the stored
bid/ask row. -/
structure Obs where
  bid : ℚ
  ask : ℚ
deriving DecidableEq

/-- Sorted-set insertion, building `sorted(all_timestamps)` where
`all_timestamps` is a Python `set` (duplicates collapse). -/
def axisInsert (t : Timestamp) : List Timestamp → List Timestamp
  | [] => [t]
  | u :: rest =>
    if t = u then u :: rest
    else if tsLt t u then t :: u :: rest
    else u :: axisInsert t rest

/-- `realtime_data_source.py` lines 28-31: the sorted union of all
instruments' index timestamps. -/
def alignAxis (data : List (String × List (Timestamp × Obs))) : List Timestamp :=
  data.foldl (fun acc sd => sd.2.foldl (fun acc2 ob => axisInsert ob.1 acc2) acc) []

/-- `DataFrame.reindex` row lookup: the row whose index equals `t`
exactly, else a missing (all-NaN) row.  `reindex` is not a fill
operation: it never takes a row from any other timestamp. -/
def lookupTs (t : Timestamp) : List (Timestamp × Obs) → Option Obs
  | [] => none
  | (u, ob) :: rest => if u = t then some ob else lookupTs t rest

/-- `realtime_data_source.py` `_align_timestamps`: for every axis
timestamp, each instrument's entry is its series `reindex`ed onto the
axis — the exact-timestamp row when one exists, the NaN (no-data) marker
otherwise. -/
def alignTimestamps (data : List (String × List (Timestamp × Obs))) :
    List (Timestamp × List (String × Option Obs)) :=
  (alignAxis data).map (fun t => (t, data.map (fun sd => (sd.1, lookupTs t sd.2))))

/-- A float price is strictly positive (NaN is not). -/
def pIsPos : PFloat → Bool
  | some q => decide (0 < q)
  | none => false

/-- Modelled from the spec: the order-validation step of the submission
path (§4.3 error conditions, §7 `OrderValidationError`).  In the source,
`BaseStrategy.send_order` (`base.py` lines 58-66) is a stub whose body
defers to the strategy manager ("具体实现由策略管理器处理"), and no
validation implementation exists under `src/`; this definition follows
the spec's words: an order with non-positive volume, an unknown
instrument, or (for LIMIT/STOP kinds) a non-positive price is invalid. -/
def orderInvalid (known : List String) (o : Order) : Bool :=
  decide (o.volume ≤ 0) || !(decide (o.instrument ∈ known)) ||
    ((decide (o.order_type = OrderType.LIMIT) || decide (o.order_type = OrderType.STOP))
      && !(pIsPos o.price))

/-- Modelled from the spec: order submission with validation.  An
invalid order is rejected immediately — status `REJECTED`, never added
to the active order set, reported through the cancel/reject notification
path — and the run continues with the rest of the state untouched; a
valid order is appended to the active (PENDING) set in submission
order. -/
def sendOrderValidated (known : List String) (o : Order) (st : BTState) : BTState :=
  if orderInvalid known o then
    { st with cancels := st.cancels ++ [{ o with status := OrderStatus.REJECTED }] }
  else
    { st with orders := st.orders ++ [o] }

/-- A Python attribute value, as far as `Order.to_dict` needs to
distinguish them (the claim about `to_dict` is about attribute
*presence*; the `.value` / `.isoformat()` renderings of present
attributes are kept as the underlying data). -/
inductive PyVal
  | str (s : String)
  | rat (q : ℚ)
  | dir (d : OrderDirection)
  | otype (t : OrderType)
  | tif (t : OrderTimeInForce)
  | ostatus (s : OrderStatus)
  | time (t : Timestamp)
  | noneVal

/-- Render an optional timestamp attribute (`expire_time`). -/
def optTimeVal : Option Timestamp → PyVal
  | some t => PyVal.time t
  | none => PyVal.noneVal

/-- Render a float attribute (`price`). -/
def pfloatVal : PFloat → PyVal
  | some q => PyVal.rat q
  | none => PyVal.noneVal

/-- `order.py` `Order.__init__` at the attribute level: the instance
`__dict__` it leaves behind, keys in assignment order (lines 57-70).
No assignment to `stop_price` occurs anywhere in the constructor. -/
def orderInit (order_id instrument : String) (direction : OrderDirection)
    (price : PFloat) (volume : ℚ) (order_type : OrderType)
    (create_time : Timestamp) (time_in_force : OrderTimeInForce)
    (expire_time : Option Timestamp) : List (String × PyVal) :=
  [("order_id", PyVal.str order_id),
   ("instrument", PyVal.str instrument),
   ("direction", PyVal.dir direction),
   ("price", pfloatVal price),
   ("volume", PyVal.rat volume),
   ("order_type", PyVal.otype order_type),
   ("time_in_force", PyVal.tif time_in_force),
   ("expire_time", optTimeVal expire_time),
   ("create_time", PyVal.time create_time),
   ("filled_time", PyVal.noneVal),
   ("filled_price", PyVal.noneVal),
   ("status", PyVal.ostatus OrderStatus.PENDING),
   ("filled_volume", PyVal.rat 0),
   ("avg_price", PyVal.rat 0)]

/-- Python attribute read `self.name`: the instance `__dict__` lookup,
raising `AttributeError` when the attribute was never assigned. -/
def pyGetAttr (attrs : List (String × PyVal)) (name : String) : Except String PyVal :=
  match dictLookup name attrs with
  | some v => Except.ok v
  | none => Except.error (String.append "AttributeError: " name)

/-- `order.py` `Order.to_dict` (lines 72-90): the dict literal's values
are evaluated left to right, reading the listed attributes of `self` in
source order; `stop_price` is read eighth, after `time_in_force` and
before `expire_time`. -/
def orderToDict (attrs : List (String × PyVal)) :
    Except String (List (String × PyVal)) := do
  let v_order_id ← pyGetAttr attrs "order_id"
  let v_instrument ← pyGetAttr attrs "instrument"
  let v_direction ← pyGetAttr attrs "direction"
  let v_price ← pyGetAttr attrs "price"
  let v_volume ← pyGetAttr attrs "volume"
  let v_order_type ← pyGetAttr attrs "order_type"
  let v_time_in_force ← pyGetAttr attrs "time_in_force"
  let v_stop_price ← pyGetAttr attrs "stop_price"
  let v_expire_time ← pyGetAttr attrs "expire_time"
  let v_create_time ← pyGetAttr attrs "create_time"
  let v_filled_time ← pyGetAttr attrs "filled_time"
  let v_filled_price ← pyGetAttr attrs "filled_price"
  let v_status ← pyGetAttr attrs "status"
  let v_filled_volume ← pyGetAttr attrs "filled_volume"
  let v_avg_price ← pyGetAttr attrs "avg_price"
  Except.ok
    [("order_id", v_order_id), ("instrument", v_instrument),
     ("direction", v_direction), ("price", v_price), ("volume", v_volume),
     ("order_type", v_order_type), ("time_in_force", v_time_in_force),
     ("stop_price", v_stop_price), ("expire_time", v_expire_time),
     ("create_time", v_create_time), ("filled_time", v_filled_time),
     ("filled_price", v_filled_price), ("status", v_status),
     ("filled_volume", v_filled_volume), ("avg_price", v_avg_price)]

/-- The spec's position-ledger invariant: every entry present in the
ledger has strictly positive volume. -/
def PosInv (positions : List (String × Position)) : Prop :=
  ∀ kv ∈ positions, 0 < kv.2.volume

/-- The equity-curve/drawdown part of the run: `updateStats` folded over
a sequence of per-step `total_pnl` values, starting from the initial
curve `[0.0]` and zero recorded drawdown. -/
def statsRun (pnls : List ℚ) : List PFloat × PFloat :=
  pnls.foldl (fun r p => updateStats (some p) r.1 r.2) ([some 0], some 0)

/-- Claim C1 scenario, first snapshot: t1, bid 10, ask 11. -/
def c1Snap1 : Snapshot := ⟨⟨0, 1⟩, some 11, some 10, [("X", ⟨some 11, some 10⟩)]⟩

/-- Claim C1 scenario, second snapshot: t2, bid 12, ask 13. -/
def c1Snap2 : Snapshot := ⟨⟨0, 2⟩, some 13, some 12, [("X", ⟨some 13, some 12⟩)]⟩

/-- Claim C1 scenario, third snapshot: t3, bid 9, ask 10. -/
def c1Snap3 : Snapshot := ⟨⟨0, 3⟩, some 10, some 9, [("X", ⟨some 10, some 9⟩)]⟩

/-- Claim C1 scenario: the MARKET BUY of volume 1 issued at t1. -/
def c1Buy : Order :=
  { order_id := "B1", instrument := "X", direction := OrderDirection.BUY,
    price := some 0, volume := 1, order_type := OrderType.MARKET,
    time_in_force := OrderTimeInForce.GTC, expire_time := none, create_time := ⟨0, 1⟩ }

/-- Claim C1 scenario: the MARKET SELL of volume 1 issued at t3. -/
def c1Sell : Order :=
  { order_id := "S1", instrument := "X", direction := OrderDirection.SELL,
    price := some 0, volume := 1, order_type := OrderType.MARKET,
    time_in_force := OrderTimeInForce.GTC, expire_time := none, create_time := ⟨0, 3⟩ }

/-- Claim C1 scenario: the strategy issues the MARKET BUY at t1 and the
MARKET SELL at t3. -/
def c1Script (s : Snapshot) : List Order :=
  if s.ts = (⟨0, 1⟩ : Timestamp) then [c1Buy]
  else if s.ts = (⟨0, 3⟩ : Timestamp) then [c1Sell]
  else []

/-- Claim C1 scenario: the final engine state of the three-snapshot
replay at the engine's configured commission rate 0.0005. -/
def c1Final : BTState := runBacktest (1/2000) c1Script [c1Snap1, c1Snap2, c1Snap3]

/-- Claim C2 scenario: a pending MARKET BUY with the given id. -/
def c2Buy (oid : String) : Order :=
  { order_id := oid, instrument := "X", direction := OrderDirection.BUY,
    price := some 0, volume := 1, order_type := OrderType.MARKET,
    time_in_force := OrderTimeInForce.GTC, expire_time := none, create_time := ⟨0, 1⟩ }

/-- Claim C2 scenario snapshot: bid 10, ask 11. -/
def c2Snap : Snapshot := ⟨⟨0, 1⟩, some 11, some 10, [("X", ⟨some 11, some 10⟩)]⟩

/-- Claim C2 scenario: two pending MARKET BUY orders submitted in order
O1, O2. -/
def c2State : BTState := { initialState with orders := [c2Buy "O1", c2Buy "O2"] }

/-- Claim C5 scenario: a pending GTC MARKET BUY on instrument X. -/
def c5Order : Order :=
  { order_id := "M1", instrument := "X", direction := OrderDirection.BUY,
    price := some 0, volume := 1, order_type := OrderType.MARKET,
    time_in_force := OrderTimeInForce.GTC, expire_time := none, create_time := ⟨0, 1⟩ }

/-- Claim C5 scenario snapshot: instrument X is marked no-data — its
quotes are the aligner's NaN filling. -/
def c5Snap : Snapshot := ⟨⟨0, 2⟩, none, none, [("X", ⟨none, none⟩)]⟩

/-- Claim C5 scenario: one step of order processing against the no-data
snapshot. -/
def c5Res : BTState := processOrders (1/2000) c5Snap { initialState with orders := [c5Order] }

/-- Claim C6 axis timestamp t1. -/
def c6T1 : Timestamp := ⟨0, 1⟩

/-- Claim C6 axis timestamp t2. -/
def c6T2 : Timestamp := ⟨0, 2⟩

/-- Claim C6 scenario: instrument A has one observation at t1 only,
instrument B has observations at t1 and t2. -/
def c6Data : List (String × List (Timestamp × Obs)) :=
  [("A", [(c6T1, ⟨10, 11⟩)]), ("B", [(c6T1, ⟨1, 2⟩), (c6T2, ⟨3, 4⟩)])]

/-- Claim C7 scenario: a DAY order created on day 0, still pending. -/
def c7Order : Order :=
  { order_id := "D1", instrument := "X", direction := OrderDirection.BUY,
    price := some 0, volume := 1, order_type := OrderType.MARKET,
    time_in_force := OrderTimeInForce.DAY, expire_time := none, create_time := ⟨0, 1⟩ }

/-- Claim C7 scenario snapshot: the next calendar day (day 1). -/
def c7Snap : Snapshot := ⟨⟨1, 0⟩, some 11, some 10, [("X", ⟨some 11, some 10⟩)]⟩

/-- Claim C7 scenario: the engine state after the expiry step. -/
def c7Res : BTState := processOrders (1/2000) c7Snap { initialState with orders := [c7Order] }

/-- Claim C7 scenario: a GOOD_TILL_DATE order expiring at time 5 of
day 0, still pending. -/
def c7OrderGtd : Order :=
  { order_id := "G1", instrument := "X", direction := OrderDirection.BUY,
    price := some 0, volume := 1, order_type := OrderType.MARKET,
    time_in_force := OrderTimeInForce.GTD, expire_time := some ⟨0, 5⟩,
    create_time := ⟨0, 1⟩ }

/-- Claim C7 scenario: a snapshot strictly after the GTD order's expiry
timestamp. -/
def c7SnapGtd : Snapshot := ⟨⟨0, 6⟩, some 11, some 10, [("X", ⟨some 11, some 10⟩)]⟩

/-- Claim C8 witness scenario: a pending MARKET BUY of volume 2. -/
def c8Buy : Order :=
  { order_id := "W1", instrument := "X", direction := OrderDirection.BUY,
    price := some 0, volume := 2, order_type := OrderType.MARKET,
    time_in_force := OrderTimeInForce.GTC, expire_time := none, create_time := ⟨0, 1⟩ }

/-- Claim C8 witness scenario: state holding the single pending order. -/
def c8State : BTState := { initialState with orders := [c8Buy] }

/-- Claim C8 witness scenario: a long position of volume 2 at price 11. -/
def c8Pos : Position := Position.make "X" OrderDirection.BUY 2 (some 11) ⟨0, 1⟩ (1/2000)

/-- Claim C8 witness scenario: a FILLED SELL of volume 3 (at least the
position's volume) against that position. -/
def c8SellFilled : Order :=
  { order_id := "W2", instrument := "X", direction := OrderDirection.SELL,
    price := some 0, volume := 3, order_type := OrderType.MARKET,
    time_in_force := OrderTimeInForce.GTC, expire_time := none, create_time := ⟨0, 1⟩,
    filled_price := some 9, status := OrderStatus.FILLED }

/-- Claim C8 witness scenario: state holding that position. -/
def c8State2 : BTState := { initialState with positions := [("X", c8Pos)] }

/-- Claim C9: a FILLED order (as `_process_orders` sees it on the
settlement phase) with the given fill price and volume. -/
def c9Fill (instr : String) (dir : OrderDirection) (p v : ℚ) : Order :=
  { order_id := "F", instrument := instr, direction := dir,
    price := some p, volume := v, order_type := OrderType.MARKET,
    time_in_force := OrderTimeInForce.GTC, expire_time := none, create_time := ⟨0, 1⟩,
    filled_price := some p, status := OrderStatus.FILLED }

/-- Claim C4 witness scenario: an order with volume 0 (non-positive). -/
def c4Order : Order :=
  { order_id := "R1", instrument := "X", direction := OrderDirection.BUY,
    price := some 1, volume := 0, order_type := OrderType.MARKET,
    time_in_force := OrderTimeInForce.GTC, expire_time := none, create_time := ⟨0, 1⟩ }

/-- `tsLe` is reflexive. -/
theorem tsLe_refl (t : Timestamp) : tsLe t t = true := by
  simp [tsLe]

/-- A successful `lookupTs` hit is an observation of the series at
exactly the looked-up timestamp. -/
theorem lookupTs_mem {t : Timestamp} {ser : List (Timestamp × Obs)} {ob : Obs}
    (h : lookupTs t ser = some ob) : (t, ob) ∈ ser := by
  induction ser with
  | nil => simp [lookupTs] at h
  | cons hd tl ih =>
    rw [show hd = (hd.1, hd.2) from rfl, lookupTs] at h
    by_cases he : hd.1 = t
    · rw [if_pos he] at h
      injection h with h
      subst he
      subst h
      exact List.mem_cons_self _ _
    · rw [if_neg he] at h
      exact List.mem_cons_of_mem _ (ih h)

/-- Claim C1: replaying the three snapshots {(t1, bid 10, ask 11),
(t2, bid 12, ask 13), (t3, bid 9, ask 10)} with a MARKET BUY of 1 at t1
and a MARKET SELL of 1 at t3 does open the position at 11 and fill the
closing SELL at 9 (the bid at t3), but the realized P&L returned by the
closing step (`pnl = position.close()`, `backtest.py` line 134) is
`position.pnl - closing commission` where `position.pnl` was last marked
in the previous step's `_update_performance_stats` at the t2 mid price
12.5: it equals (12.5 − 11)·1 − 12.5·1·0.0005 = 239/160 = 1.49375, a
positive number — not 9 − 11 = −2 minus commissions as the claim
states. -/
theorem claim_C1_close_pnl_eval :
    c1Final.fills.map (fun o => o.filled_price) = [some 11, some 9] ∧
    c1Final.positions = [] ∧
    c1Final.closed_pnls = [some (239/160)] ∧
    0 < ((239 : ℚ)/160) := by
  refine ⟨?_, ?_, ?_, by norm_num⟩ <;> with_unfolding_all rfl

/-- Claim C2: with two pending MARKET BUY orders O1, O2 in the active
set at the start of the step, `_process_orders` fills and removes O1,
and the `list.remove`-during-iteration shift then skips O2 entirely: O2
is still PENDING and unevaluated after the step (a MARKET order that was
evaluated would have filled), so not every active order is evaluated
once per step. -/
theorem claim_C2_skipped_order_eval :
    (processOrders (1/2000) c2Snap c2State).orders = [c2Buy "O2"] ∧
    (c2Buy "O2").status = OrderStatus.PENDING ∧
    (processOrders (1/2000) c2Snap c2State).fills.map (fun o => o.order_id) = ["O1"] := by
  refine ⟨?_, ?_, ?_⟩ <;> with_unfolding_all rfl

/-- Claim C5: on a snapshot whose quotes for the order's instrument are
the no-data NaN filling, `_process_orders` has no no-data check: the
pending MARKET BUY is not skipped but FILLED at the NaN quote, a
position with a NaN open price is created in the ledger, and the order
leaves the active set — a fill synthesized from an absent quote. -/
theorem claim_C5_nodata_fill_eval :
    c5Res.fills.map (fun o => (o.status, o.filled_price)) = [(OrderStatus.FILLED, none)] ∧
    (dictLookup "X" c5Res.positions).map (fun p => p.open_price) = some none ∧
    c5Res.orders = [] := by
  refine ⟨?_, ?_, ?_⟩ <;> with_unfolding_all rfl

/-- Claim C6 counterexample: instrument A has an observation at t1 and
t1 ≤ t2, yet A's entry at axis timestamp t2 is the no-data marker, not
the carried-forward (bid 10, ask 11) the claim's forward-fill requires —
`reindex` fills every axis timestamp absent from the instrument's own
index with NaN. -/
theorem claim_C6_counterexample :
    alignTimestamps c6Data =
      [(c6T1, [("A", some ⟨10, 11⟩), ("B", some ⟨1, 2⟩)]),
       (c6T2, [("A", none), ("B", some ⟨3, 4⟩)])] ∧
    tsLe c6T1 c6T2 = true ∧
    lookupTs c6T1 [(c6T1, (⟨10, 11⟩ : Obs))] = some ⟨10, 11⟩ := by
  refine ⟨?_, ?_, ?_⟩ <;> with_unfolding_all rfl

/-- Claim C7 counterexample: a DAY order created on day 0, processed
against a day-1 snapshot, transitions to CANCELLED but — because the
expiry branch ends in `continue` — is still in the active order list
after the step and no cancel notification has fired, contradicting the
claim that it is removed and notified on that same step. -/
theorem claim_C7_counterexample :
    c7Res.orders = [{ c7Order with status := OrderStatus.CANCELLED }] ∧
    c7Res.cancels = [] := by
  refine ⟨?_, ?_⟩ <;> with_unfolding_all rfl

/-- Claim C10: for every argument list, the object `Order.__init__`
builds has no `stop_price` attribute, and `to_dict` reads
`self.stop_price` (after the seven attributes before it in the dict
literal, all of which are present), so every call raises
`AttributeError` and no dictionary serialization is ever produced. -/
theorem claim_C10_to_dict_attribute_error
    (oid instr : String) (d : OrderDirection) (pr : PFloat) (v : ℚ)
    (ot : OrderType) (ct : Timestamp) (tf : OrderTimeInForce)
    (et : Option Timestamp) :
    orderToDict (orderInit oid instr d pr v ot ct tf et) =
      Except.error "AttributeError: stop_price" := by
  with_unfolding_all rfl

/-- Claim C6 (amended): in the aligned sequence, an instrument's entry
at an axis timestamp is its series looked up at exactly that timestamp —
it is the observation stored at that timestamp when one exists (never a
value from an earlier or later observation, so no forward- and no
backward-fill), and the no-data marker otherwise; in particular an
instrument with no observation at or before the axis timestamp is
marked no-data. -/
theorem claim_C6_amended_exact_lookup
    (data : List (String × List (Timestamp × Obs))) (t : Timestamp)
    (row : List (String × Option Obs)) (s : String) (ser : List (Timestamp × Obs))
    (hrow : (t, row) ∈ alignTimestamps data) (hser : (s, ser) ∈ data) :
    (s, lookupTs t ser) ∈ row ∧
    (∀ ob, lookupTs t ser = some ob → (t, ob) ∈ ser) ∧
    ((∀ u ob, (u, ob) ∈ ser → tsLe u t = false) → lookupTs t ser = none) := by
  have hrow' : row = data.map (fun sd => (sd.1, lookupTs t sd.2)) := by
    rw [alignTimestamps] at hrow
    rcases List.mem_map.mp hrow with ⟨t', _, heq⟩
    injection heq with hta hrb
    subst hta
    exact hrb.symm
  refine ⟨?_, fun ob h => lookupTs_mem h, ?_⟩
  · subst hrow'
    exact List.mem_map.mpr ⟨(s, ser), hser, rfl⟩
  · intro hnone
    cases e : lookupTs t ser with
    | none => rfl
    | some ob =>
      have hf := hnone t ob (lookupTs_mem e)
      rw [tsLe_refl] at hf
      exact absurd hf (by simp)

/-- Claim C6 (amended) witness: the amended statement evaluated on the
two-instrument scenario at axis timestamp t1. -/
theorem claim_C6_amended_exact_lookup_witness :
    ("A", lookupTs c6T1 [(c6T1, (⟨10, 11⟩ : Obs))]) ∈
      [("A", some (⟨10, 11⟩ : Obs)), ("B", some (⟨1, 2⟩ : Obs))] ∧
    (∀ ob, lookupTs c6T1 [(c6T1, (⟨10, 11⟩ : Obs))] = some ob →
      (c6T1, ob) ∈ [(c6T1, (⟨10, 11⟩ : Obs))]) ∧
    ((∀ u ob, (u, ob) ∈ [(c6T1, (⟨10, 11⟩ : Obs))] → tsLe u c6T1 = false) →
      lookupTs c6T1 [(c6T1, (⟨10, 11⟩ : Obs))] = none) :=
  claim_C6_amended_exact_lookup c6Data c6T1
    [("A", some ⟨10, 11⟩), ("B", some ⟨1, 2⟩)] "A" [(c6T1, ⟨10, 11⟩)]
    (by rw [show alignTimestamps c6Data =
          [(c6T1, [("A", some ⟨10, 11⟩), ("B", some ⟨1, 2⟩)]),
           (c6T2, [("A", none), ("B", some ⟨3, 4⟩)])] from by with_unfolding_all rfl]
        exact List.mem_cons_self _ _)
    (by rw [c6Data]; exact List.mem_cons_self _ _)

/-- Claim C7 (amended): on the step a pending order expires — a DAY
order whose snapshot calendar day exceeds its creation day, or a
GOOD_TILL_DATE order whose snapshot timestamp exceeds its expiry
timestamp — the order transitions to CANCELLED and no fill logic runs
for it (fills, cancels and the position ledger are untouched), but it
stays in the active order list; the cancel notification and its removal
from the active set happen on the next step on which orders are
processed. -/
theorem claim_C7_amended_deferred_cancel (rate : ℚ) (o : Order) (st : BTState)
    (snap snap2 : Snapshot)
    (h1 : o.status = OrderStatus.PENDING)
    (h23 : (o.time_in_force = OrderTimeInForce.DAY ∧ o.create_time.day < snap.ts.day) ∨
      (o.time_in_force = OrderTimeInForce.GTD ∧ tsAfterOpt snap.ts o.expire_time = true)) :
    (processOrders rate snap { st with orders := [o] }).orders =
      [{ o with status := OrderStatus.CANCELLED }] ∧
    (processOrders rate snap { st with orders := [o] }).fills = st.fills ∧
    (processOrders rate snap { st with orders := [o] }).cancels = st.cancels ∧
    (processOrders rate snap { st with orders := [o] }).positions = st.positions ∧
    (processOrders rate snap2 (processOrders rate snap { st with orders := [o] })).orders = [] ∧
    (processOrders rate snap2 (processOrders rate snap { st with orders := [o] })).cancels =
      st.cancels ++ [{ o with status := OrderStatus.CANCELLED }] := by
  rcases h23 with ⟨h2, h3⟩ | ⟨h2, h3⟩ <;>
    simp [processOrders, processLoop, processOne, settleOrder, h1, h2, h3]

/-- Claim C7 (amended) witness: the deferred cancellation evaluated on
the concrete DAY order created on day 0 against the day-1 snapshot, and
on the concrete GOOD_TILL_DATE order expiring at (day 0, time 5)
against the (day 0, time 6) snapshot. -/
theorem claim_C7_amended_deferred_cancel_witness :
    ((processOrders (1/2000) c7Snap { initialState with orders := [c7Order] }).orders =
      [{ c7Order with status := OrderStatus.CANCELLED }] ∧
    (processOrders (1/2000) c7Snap { initialState with orders := [c7Order] }).fills =
      initialState.fills ∧
    (processOrders (1/2000) c7Snap { initialState with orders := [c7Order] }).cancels =
      initialState.cancels ∧
    (processOrders (1/2000) c7Snap { initialState with orders := [c7Order] }).positions =
      initialState.positions ∧
    (processOrders (1/2000) c7Snap
        (processOrders (1/2000) c7Snap { initialState with orders := [c7Order] })).orders = [] ∧
    (processOrders (1/2000) c7Snap
        (processOrders (1/2000) c7Snap { initialState with orders := [c7Order] })).cancels =
      initialState.cancels ++ [{ c7Order with status := OrderStatus.CANCELLED }]) ∧
    ((processOrders (1/2000) c7SnapGtd { initialState with orders := [c7OrderGtd] }).orders =
      [{ c7OrderGtd with status := OrderStatus.CANCELLED }] ∧
    (processOrders (1/2000) c7SnapGtd { initialState with orders := [c7OrderGtd] }).fills =
      initialState.fills ∧
    (processOrders (1/2000) c7SnapGtd { initialState with orders := [c7OrderGtd] }).cancels =
      initialState.cancels ∧
    (processOrders (1/2000) c7SnapGtd { initialState with orders := [c7OrderGtd] }).positions =
      initialState.positions ∧
    (processOrders (1/2000) c7SnapGtd
        (processOrders (1/2000) c7SnapGtd
          { initialState with orders := [c7OrderGtd] })).orders = [] ∧
    (processOrders (1/2000) c7SnapGtd
        (processOrders (1/2000) c7SnapGtd
          { initialState with orders := [c7OrderGtd] })).cancels =
      initialState.cancels ++ [{ c7OrderGtd with status := OrderStatus.CANCELLED }]) :=
  ⟨claim_C7_amended_deferred_cancel (1/2000) c7Order initialState c7Snap c7Snap
      rfl (Or.inl ⟨rfl, by norm_num [c7Order, c7Snap]⟩),
   claim_C7_amended_deferred_cancel (1/2000) c7OrderGtd initialState c7SnapGtd c7SnapGtd
      rfl (Or.inr ⟨rfl, by with_unfolding_all rfl⟩)⟩

/-- Claim C4 (spec-modelled): an order submitted with non-positive
volume, an unknown instrument, or (for LIMIT/STOP kinds) a non-positive
price is rejected immediately by the modelled validation: its status
becomes REJECTED, it is never added to the active order set, the
reject is reported through the cancel/reject notification path, and the
rest of the engine state is untouched, so the run continues. -/
theorem claim_C4_reject_invalid (known : List String) (o : Order) (st : BTState)
    (h : o.volume ≤ 0 ∨ o.instrument ∉ known ∨
      ((o.order_type = OrderType.LIMIT ∨ o.order_type = OrderType.STOP) ∧
        pIsPos o.price = false)) :
    (sendOrderValidated known o st).orders = st.orders ∧
    (sendOrderValidated known o st).cancels =
      st.cancels ++ [{ o with status := OrderStatus.REJECTED }] ∧
    ({ o with status := OrderStatus.REJECTED } : Order).status = OrderStatus.REJECTED ∧
    (sendOrderValidated known o st).positions = st.positions ∧
    (sendOrderValidated known o st).fills = st.fills := by
  have hb : orderInvalid known o = true := by
    rcases h with h | h | ⟨h1, h2⟩
    · simp [orderInvalid, h]
    · simp [orderInvalid, h]
    · rcases h1 with h1 | h1 <;> simp [orderInvalid, h1, h2]
  simp [sendOrderValidated, hb]

/-- Claim C4 (spec-modelled) witness: the rejection evaluated on a
volume-0 order. -/
theorem claim_C4_reject_invalid_witness :
    (sendOrderValidated ["X"] c4Order initialState).orders = initialState.orders ∧
    (sendOrderValidated ["X"] c4Order initialState).cancels =
      initialState.cancels ++ [{ c4Order with status := OrderStatus.REJECTED }] ∧
    ({ c4Order with status := OrderStatus.REJECTED } : Order).status =
      OrderStatus.REJECTED ∧
    (sendOrderValidated ["X"] c4Order initialState).positions = initialState.positions ∧
    (sendOrderValidated ["X"] c4Order initialState).fills = initialState.fills :=
  claim_C4_reject_invalid ["X"] c4Order initialState (Or.inl (by norm_num [c4Order]))

/-- Claim C3 counterexample: one step with total P&L 2 starting from the
initial curve gives the monotonically non-decreasing equity curve
[0, 2], yet the recorded maximum drawdown is (max − min)/max =
(2 − 0)/2 = 1, not 0 — `trough = min(curve)` is the global minimum, which
for a rising curve is the starting value 0. -/
theorem claim_C3_counterexample :
    (updateStats (some 2) [some 0] (some 0)).1 = [some 0, some 2] ∧
    ple (some 0) (some 2) = true ∧
    (updateStats (some 2) [some 0] (some 0)).2 = some 1 ∧
    (some 1 : PFloat) ≠ some 0 := by
  refine ⟨?_, ?_, ?_, by simp⟩ <;> with_unfolding_all rfl

/-- Python `max` keeps an accumulator of `some 0` over a list of
nonpositive rationals. -/
theorem foldMax_stay_zero (xs : List PFloat)
    (h : ∀ y ∈ xs, ∃ q : ℚ, y = some q ∧ q ≤ 0) :
    xs.foldl (fun acc y => if pgt y acc then y else acc) (some 0) = some 0 := by
  induction xs with
  | nil => rfl
  | cons y ys ih =>
    rcases h y (List.mem_cons_self _ _) with ⟨q, rfl, hq⟩
    rw [List.foldl_cons]
    have hc : pgt (some q) (some 0) = false := by
      simp only [pgt, decide_eq_false_iff_not]
      exact hq.not_lt
    rw [hc]
    simpa using ih (fun y hy => h y (List.mem_cons_of_mem _ hy))

/-- The invariant the equity curve satisfies along a run whose per-step
total P&L is never positive: it starts at `some 0`, every entry is a
`some` of a nonpositive rational, and its last entry is known. -/
def GoodCurve (eq : List PFloat) : Prop :=
  ∃ (xs : List ℚ) (r : ℚ), eq = some 0 :: xs.map some ∧ (∀ x ∈ xs, x ≤ 0) ∧
    r ≤ 0 ∧ eq.getLastD (some 0) = some r

/-- One nonpositive-P&L step of `updateStats` keeps the curve invariant
and keeps the recorded maximum drawdown at 0. -/
theorem updateStats_nonpos_step (p : ℚ) (hp : p ≤ 0) (eq : List PFloat)
    (hg : GoodCurve eq) :
    GoodCurve (updateStats (some p) eq (some 0)).1 ∧
    (updateStats (some p) eq (some 0)).2 = some 0 := by
  rcases hg with ⟨xs, r, hshape, hxs, hr, hlast⟩
  have hx' : ∀ x ∈ xs ++ [r + p], x ≤ 0 := by
    intro x hx
    rcases List.mem_append.mp hx with hx | hx
    · exact hxs x hx
    · simp at hx
      subst hx
      linarith
  have hcurve : (updateStats (some p) eq (some 0)).1 = eq ++ [some (r + p)] := by
    simp only [updateStats]
    rw [hlast, show padd (some r) (some p) = some (r + p) from rfl]
  have hshape2 : eq ++ [some (r + p)] = some 0 :: List.map some (xs ++ [r + p]) := by
    rw [hshape]
    simp
  have hmax : listMaxP (eq ++ [some (r + p)]) = some 0 := by
    rw [hshape2, listMaxP]
    refine foldMax_stay_zero _ ?_
    intro y hy
    rcases List.mem_map.mp hy with ⟨x, hx, rfl⟩
    exact ⟨x, rfl, hx' x hx⟩
  constructor
  · refine ⟨xs ++ [r + p], r + p, by rw [hcurve, hshape2], hx', by linarith, ?_⟩
    rw [hcurve, List.getLastD_eq_getLast?, List.getLast?_concat]
    rfl
  · simp only [updateStats]
    rw [hlast, show padd (some r) (some p) = some (r + p) from rfl, hmax]
    simp [pgt]

/-- Folding nonpositive per-step P&L values keeps the invariant and the
zero recorded maximum drawdown. -/
theorem statsRun_nonpos_aux (pnls : List ℚ) (h : ∀ p ∈ pnls, p ≤ 0) :
    ∀ eq : List PFloat, GoodCurve eq →
      GoodCurve (pnls.foldl (fun racc p => updateStats (some p) racc.1 racc.2)
        (eq, some 0)).1 ∧
      (pnls.foldl (fun racc p => updateStats (some p) racc.1 racc.2)
        (eq, some 0)).2 = some 0 := by
  induction pnls with
  | nil => intro eq hg; exact ⟨hg, rfl⟩
  | cons p ps ih =>
    intro eq hg
    have hstep := updateStats_nonpos_step p (h p (List.mem_cons_self _ _)) eq hg
    rw [List.foldl_cons]
    have hpair : updateStats (some p) eq (some 0) =
        ((updateStats (some p) eq (some 0)).1, some 0) := by
      rw [Prod.ext_iff]
      exact ⟨rfl, hstep.2⟩
    rw [hpair]
    exact ih (fun q hq => h q (List.mem_cons_of_mem _ hq)) _ hstep.1

/-- Claim C3 (amended): the recorded maximum drawdown is monotonically
non-decreasing from step to step, each step's drawdown is
(max − min)/max of the equity curve so far (0 when the max is 0), and
the recorded maximum drawdown equals 0 whenever the equity curve is
monotonically non-INcreasing (for a monotonically non-decreasing curve
that rises above its starting value 0 the code instead records
(max − 0)/max = 1, as the counterexample shows). -/
theorem claim_C3_amended_drawdown :
    (∀ (tp : PFloat) (eq : List PFloat) (q : ℚ),
      pge (updateStats tp eq (some q)).2 (some q) = true) ∧
    (∀ pnls : List ℚ, (∀ p ∈ pnls, p ≤ 0) → (statsRun pnls).2 = some 0) := by
  constructor
  · intro tp eq q
    have key : ∀ dd : PFloat,
        pge (if pgt dd (some q) then dd else some q) (some q) = true := by
      intro dd
      cases dd with
      | none => simp [pgt, pge]
      | some d =>
        by_cases hqd : q < d
        · simp [pgt, pge, hqd, le_of_lt hqd]
        · simp [pgt, pge, hqd]
    simp only [updateStats]
    exact key _
  · intro pnls h
    have := statsRun_nonpos_aux pnls h [some 0] ⟨[], 0, rfl, by simp, le_refl 0, rfl⟩
    exact this.2

/-- Claim C3 (amended) witness: the monotonicity step at a concrete
input, and the zero drawdown of the one-step falling curve. -/
theorem claim_C3_amended_drawdown_witness :
    pge (updateStats (some 1) [some 0] (some 0)).2 (some 0) = true ∧
    (statsRun [(-1 : ℚ)]).2 = some 0 :=
  ⟨claim_C3_amended_drawdown.1 (some 1) [some 0] 0,
   claim_C3_amended_drawdown.2 [(-1)] (by norm_num)⟩

/-- A successful `dictLookup` hit is an entry of the dict. -/
theorem dictLookup_mem {α : Type} {k : String} {v : α} {l : List (String × α)}
    (h : dictLookup k l = some v) : (k, v) ∈ l := by
  induction l with
  | nil => simp [dictLookup] at h
  | cons hd tl ih =>
    rw [show hd = (hd.1, hd.2) from rfl, dictLookup] at h
    by_cases he : hd.1 = k
    · rw [if_pos he] at h
      injection h with h
      subst he
      subst h
      exact List.mem_cons_self _ _
    · rw [if_neg he] at h
      exact List.mem_cons_of_mem _ (ih h)

/-- An entry of `dictSet k v l` is the new entry or an entry of `l`. -/
theorem mem_dictSet {α : Type} {k : String} {v : α} {l : List (String × α)}
    {kv : String × α} (h : kv ∈ dictSet k v l) : kv = (k, v) ∨ kv ∈ l := by
  rcases List.mem_map.mp h with ⟨kv', hkv', heq⟩
  by_cases he : kv'.1 = k
  · rw [if_pos he] at heq
    exact Or.inl heq.symm
  · rw [if_neg he] at heq
    exact Or.inr (heq ▸ hkv')

/-- An entry of `dictErase k l` is an entry of `l`. -/
theorem mem_dictErase {α : Type} {k : String} {l : List (String × α)}
    {kv : String × α} (h : kv ∈ dictErase k l) : kv ∈ l :=
  List.mem_of_mem_filter h

/-- After `del d[k]`, looking up `k` misses. -/
theorem dictLookup_dictErase_self {α : Type} (k : String) (l : List (String × α)) :
    dictLookup k (dictErase k l) = none := by
  induction l with
  | nil => rfl
  | cons hd tl ih =>
    by_cases he : hd.1 = k
    · have hstep : dictErase k (hd :: tl) = dictErase k tl := by
        simp [dictErase, List.filter_cons, he]
      rw [hstep]
      exact ih
    · have hstep : dictErase k (hd :: tl) = hd :: dictErase k tl := by
        simp [dictErase, List.filter_cons, he]
      rw [hstep, show hd = (hd.1, hd.2) from rfl, dictLookup, if_neg he]
      exact ih

/-- Fill evaluation never changes an order's volume. -/
theorem evalFill_volume (snap : Snapshot) (o : Order) :
    (evalFill snap o).volume = o.volume := by
  rw [evalFill]
  repeat' split
  all_goals rfl

/-- Applying a positive-volume fill to the ledger preserves the
strictly-positive-volume invariant. -/
theorem applyFilledOrder_posInv (rate : ℚ) (ts : Timestamp) (o : Order) (st : BTState)
    (ho : 0 < o.volume) (hp : PosInv st.positions) :
    PosInv (applyFilledOrder rate ts o st).positions := by
  unfold applyFilledOrder
  split
  · rename_i position hl
    have hpos : 0 < position.volume := hp _ (dictLookup_mem hl)
    by_cases hdir : position.direction = o.direction
    · rw [if_pos hdir]
      intro kv hkv
      dsimp only at hkv
      rcases mem_dictSet hkv with hkv | hkv
      · rw [hkv]
        simp only [Position.add_commission]
        linarith
      · exact hp _ hkv
    · rw [if_neg hdir]
      by_cases hvol : position.volume ≤ o.volume
      · rw [if_pos hvol]
        intro kv hkv
        dsimp only at hkv
        exact hp _ (mem_dictErase hkv)
      · rw [if_neg hvol]
        intro kv hkv
        dsimp only at hkv
        rcases mem_dictSet hkv with hkv | hkv
        · rw [hkv]
          dsimp only
          have := not_le.mp hvol
          linarith
        · exact hp _ hkv
  · intro kv hkv
    dsimp only at hkv
    rcases List.mem_append.mp hkv with hkv | hkv
    · exact hp kv hkv
    · simp at hkv
      rw [hkv]
      simpa [Position.make, Position.add_commission] using ho

/-- Settlement of a positive-volume order preserves the ledger
invariant. -/
theorem settleOrder_posInv (rate : ℚ) (snap : Snapshot) (o : Order) (st : BTState)
    (ho : 0 < o.volume) (hp : PosInv st.positions) :
    PosInv (settleOrder rate snap o st).2.2.positions := by
  rw [settleOrder]
  by_cases h1 : o.status = OrderStatus.FILLED
  · rw [if_pos h1]
    exact applyFilledOrder_posInv rate snap.ts o st ho hp
  · rw [if_neg h1]
    by_cases h2 : o.status = OrderStatus.CANCELLED
    · rw [if_pos h2]
      exact hp
    · rw [if_neg h2]
      exact hp

/-- One loop body over a positive-volume order preserves the ledger
invariant. -/
theorem processOne_posInv (rate : ℚ) (snap : Snapshot) (o : Order) (st : BTState)
    (ho : 0 < o.volume) (hp : PosInv st.positions) :
    PosInv (processOne rate snap o st).2.2.positions := by
  rw [processOne]
  by_cases h1 : o.status = OrderStatus.PENDING
  · rw [if_pos h1]
    by_cases h2 : o.time_in_force = OrderTimeInForce.DAY ∧ o.create_time.day < snap.ts.day
    · rw [if_pos h2]
      exact hp
    · rw [if_neg h2]
      by_cases h3 : o.time_in_force = OrderTimeInForce.GTD ∧ tsAfterOpt snap.ts o.expire_time
      · rw [if_pos h3]
        exact hp
      · rw [if_neg h3]
        exact settleOrder_posInv rate snap (evalFill snap o) st
          (by rw [evalFill_volume]; exact ho) hp
  · rw [if_neg h1]
    exact settleOrder_posInv rate snap o st ho hp

/-- The whole per-step order loop preserves the ledger invariant when
every order in the remaining list has positive volume. -/
theorem processLoop_posInv (rate : ℚ) (snap : Snapshot) :
    ∀ (n : ℕ) (todo : List Order), todo.length ≤ n →
      ∀ (done : List Order) (st : BTState),
      (∀ o ∈ todo, 0 < o.volume) → PosInv st.positions →
      PosInv (processLoop rate snap done todo st).2.positions := by
  intro n
  induction n with
  | zero =>
    intro todo hlen done st _ hp
    have he : todo = [] := List.length_eq_zero.mp (Nat.le_zero.mp hlen)
    subst he
    simp only [processLoop]
    exact hp
  | succ n ih =>
    intro todo hlen done st ht hp
    cases todo with
    | nil =>
      simp only [processLoop]
      exact hp
    | cons o rest =>
      rw [processLoop.eq_def]
      dsimp only
      have ho := ht o (List.mem_cons_self _ _)
      have hst' := processOne_posInv rate snap o st ho hp
      by_cases hrm : (processOne rate snap o st).2.1 = true
      · rw [if_pos hrm]
        cases rest with
        | nil => exact hst'
        | cons skipped rest' =>
          dsimp only
          refine ih rest' ?_ (done ++ [skipped]) _ ?_ hst'
          · simp at hlen ⊢
            omega
          · intro q hq
            exact ht q (List.mem_cons_of_mem _ (List.mem_cons_of_mem _ hq))
      · rw [if_neg hrm]
        refine ih rest ?_ (done ++ [(processOne rate snap o st).1]) _ ?_ hst'
        · simp at hlen ⊢
          omega
        · intro q hq
          exact ht q (List.mem_cons_of_mem _ hq)

/-- Claim C8: (i) a processing step started with only positive-volume
orders in the active set preserves the ledger invariant that every
position entry has strictly positive volume (in particular no
zero-volume entry persists after the step's fills are applied); (ii) a
fill of opposite direction whose volume is at least the existing
position's volume deletes that position's entry from the ledger. -/
theorem claim_C8_position_invariant :
    (∀ (rate : ℚ) (snap : Snapshot) (st : BTState),
      (∀ o ∈ st.orders, 0 < o.volume) → PosInv st.positions →
      PosInv (processOrders rate snap st).positions) ∧
    (∀ (rate : ℚ) (ts : Timestamp) (o : Order) (st : BTState) (position : Position),
      dictLookup o.instrument st.positions = some position →
      position.direction ≠ o.direction → position.volume ≤ o.volume →
      dictLookup o.instrument (applyFilledOrder rate ts o st).positions = none) := by
  constructor
  · intro rate snap st h1 h2
    have := processLoop_posInv rate snap st.orders.length st.orders (le_refl _) [] st h1 h2
    simpa [processOrders] using this
  · intro rate ts o st position hl hdir hvol
    unfold applyFilledOrder
    split
    · rename_i position2 hl2
      rw [hl] at hl2
      injection hl2 with hl2
      subst hl2
      rw [if_neg hdir, if_pos hvol]
      exact dictLookup_dictErase_self o.instrument st.positions
    · rename_i hl2
      rw [hl] at hl2
      simp at hl2

/-- Claim C8 witness: the step invariant evaluated on a one-order state,
and the full-close deletion evaluated on a volume-2 long position hit by
a volume-3 SELL fill. -/
theorem claim_C8_position_invariant_witness :
    PosInv (processOrders (1/2000) c2Snap c8State).positions ∧
    dictLookup "X" (applyFilledOrder (1/2000) ⟨0, 1⟩ c8SellFilled c8State2).positions = none :=
  ⟨claim_C8_position_invariant.1 (1/2000) c2Snap c8State
      (by intro o ho
          simp [c8State, initialState] at ho
          rw [ho]
          norm_num [c8Buy])
      (by intro kv hkv
          simp [c8State, initialState] at hkv),
   claim_C8_position_invariant.2 (1/2000) ⟨0, 1⟩ c8SellFilled c8State2 c8Pos
      (by with_unfolding_all rfl)
      (by simp [c8Pos, c8SellFilled, Position.make])
      (by norm_num [c8Pos, c8SellFilled, Position.make])⟩

/-- Claim C9: applying two FILLED same-direction fills (p1, v1) and
(p2, v2) to an empty ledger — in either order — yields one position
whose average open price is (p1·v1 + p2·v2)/(v1 + v2) and whose volume
is v1 + v2: the re-average formula of `_process_orders` lines 121-129,
invariant under the order of the two fills. -/
theorem claim_C9_reaverage (instr : String) (dir : OrderDirection) (rate : ℚ)
    (ts : Timestamp) (p1 p2 v1 v2 : ℚ) (h1 : 0 < v1) (h2 : 0 < v2) :
    (dictLookup instr (applyFilledOrder rate ts (c9Fill instr dir p2 v2)
        (applyFilledOrder rate ts (c9Fill instr dir p1 v1) initialState)).positions).map
      (fun p => (p.open_price, p.volume)) =
      some (some ((p1 * v1 + p2 * v2) / (v1 + v2)), v1 + v2) ∧
    (dictLookup instr (applyFilledOrder rate ts (c9Fill instr dir p1 v1)
        (applyFilledOrder rate ts (c9Fill instr dir p2 v2) initialState)).positions).map
      (fun p => (p.open_price, p.volume)) =
      some (some ((p1 * v1 + p2 * v2) / (v1 + v2)), v1 + v2) := by
  have h12 : v1 + v2 ≠ 0 := by positivity
  have h21 : v2 + v1 ≠ 0 := by positivity
  constructor
  · simp [applyFilledOrder, initialState, dictLookup, dictSet, c9Fill, Position.make,
      Position.add_commission, padd, pmul, pdiv, h12]
  · simp [applyFilledOrder, initialState, dictLookup, dictSet, c9Fill, Position.make,
      Position.add_commission, padd, pmul, pdiv, h21]
    constructor
    · rw [add_comm v2 v1, add_comm (p2 * v2) (p1 * v1)]
    · exact add_comm v2 v1

/-- Claim C9 witness: 2 lots at 10 then 3 lots at 20 (and the reverse
order) both yield average price 16 and volume 5. -/
theorem claim_C9_reaverage_witness :
    (dictLookup "X" (applyFilledOrder (1/2000) ⟨0, 1⟩ (c9Fill "X" OrderDirection.BUY 20 3)
        (applyFilledOrder (1/2000) ⟨0, 1⟩ (c9Fill "X" OrderDirection.BUY 10 2)
          initialState)).positions).map
      (fun p => (p.open_price, p.volume)) = some (some 16, 5) ∧
    (dictLookup "X" (applyFilledOrder (1/2000) ⟨0, 1⟩ (c9Fill "X" OrderDirection.BUY 10 2)
        (applyFilledOrder (1/2000) ⟨0, 1⟩ (c9Fill "X" OrderDirection.BUY 20 3)
          initialState)).positions).map
      (fun p => (p.open_price, p.volume)) = some (some 16, 5) := by
  have h := claim_C9_reaverage "X" OrderDirection.BUY (1/2000) ⟨0, 1⟩ 10 20 2 3
    (by norm_num) (by norm_num)
  rw [show ((10 : ℚ) * 2 + 20 * 3) / (2 + 3) = 16 by norm_num,
      show (2 : ℚ) + 3 = 5 by norm_num] at h
  exact h

end MBF
